import Mathlib

/-!
# Verification of `sg-to-csv` (src/main.rs) against its specification

A shallow embedding of the single Rust source file `src/main.rs`.  The
program validates a schema name, lists the tables of that schema from the
Postgres catalog, and streams each table's `COPY ... TO STDOUT` output into
a per-table file, optionally through a gzip encoder.

External collaborators (the Postgres client, the `opendal` filesystem
operator, the `async-compression` gzip encoder) are modelled as explicit
oracles / state machines:

* the database is a record of response functions keyed by the exact query
  text the program sends;
* the storage sink is a record of per-path open/write results plus the byte
  log of what reached each file;
* the gzip encoder is a state machine that buffers payload bytes, emitting
  the framed stream (header, payload, trailer) only when it is closed —
  mirroring `async_compression::futures::write::GzipEncoder`, whose trailer
  is written by `poll_close`.  The DEFLATE body is abstracted as the
  identity on payload bytes (lossless, which is the only property the
  claims depend on) and the CRC32 checksum as a byte sum; the framing and
  the finalize-to-emit-trailer behaviour, which the claims are about, are
  modelled explicitly.

The run itself (`main` / `dump_table_contents`) is translated statement by
statement into pure functions that also record an event trace, so that
ordering and absence properties (sequential processing, no delete, no
finalize) are expressible.
-/

namespace SgToCsv

/-- A byte; chunks from the database and file contents are lists of bytes. -/
abbrev Byte := Nat

/-- A sequence of raw bytes. -/
abbrev Bytes := List Byte

/-! ## Identifier validator (src/main.rs lines 27–34) -/

/-- Model of Rust's `char::is_alphanumeric`, the predicate used by
`validate_schema`.  In Rust this is the Unicode-aware classifier: true iff
the char has the derived property `Alphabetic` or general category `Nd`,
`Nl` or `No` — NOT the ASCII-only classifier.  The table below is exact on
the Latin-1 range (code points < 0x100): ASCII digits and letters, plus the
Latin-1 alphanumerics ª ² ³ µ ¹ º ¼ ½ ¾ À–Ö Ø–ö ø–ÿ (× U+00D7 and ÷ U+00F7
are symbols and excluded, as in Unicode).  Code points ≥ 0x100 are outside
the modelled range and mapped to `false`; every validator theorem that
quantifies over strings restricts itself to Latin-1 strings, where the
model is exact. -/
def char_is_alphanumeric (c : Char) : Bool :=
  let n := c.toNat
  decide ((48 ≤ n ∧ n ≤ 57) ∨ (65 ≤ n ∧ n ≤ 90) ∨ (97 ≤ n ∧ n ≤ 122) ∨
    n = 0xAA ∨ n = 0xB2 ∨ n = 0xB3 ∨ n = 0xB5 ∨ n = 0xB9 ∨ n = 0xBA ∨
    (0xBC ≤ n ∧ n ≤ 0xBE) ∨ (0xC0 ≤ n ∧ n ≤ 0xD6) ∨
    (0xD8 ≤ n ∧ n ≤ 0xF6) ∨ (0xF8 ≤ n ∧ n ≤ 0xFF))

/-- ASCII-alphanumeric (`^[A-Za-z0-9]+$` character class), the classifier the
spec's wording claims the validator uses.  Written from the spec, for
comparison with `char_is_alphanumeric`, the classifier the code uses. -/
def asciiAlphanumeric (c : Char) : Bool :=
  let n := c.toNat
  decide ((48 ≤ n ∧ n ≤ 57) ∨ (65 ≤ n ∧ n ≤ 90) ∨ (97 ≤ n ∧ n ≤ 122))

/-- Rust `fn validate_schema(val: &str) -> Result<(), String>` from src/main.rs:
`if val.chars().all(char::is_alphanumeric) { Ok(()) } else { Err(...) }`. -/
def validate_schema (val : String) : Except String Unit :=
  if val.data.all char_is_alphanumeric then .ok ()
  else .error "Schema name must be alphanumeric"

/-! ## Query text and output path (src/main.rs lines 66–69, 89–90, 101–105) -/

/-- The catalog query built in `main`:
`format!("SELECT tablename FROM pg_tables WHERE schemaname = '{}'", schema_name)`. -/
def tables_query (schema_name : String) : String :=
  "SELECT tablename FROM pg_tables WHERE schemaname = '" ++ schema_name ++ "'"

/-- The unload query built in `dump_table_contents`:
`format!("COPY (select * from {}.{} order by vid) TO STDOUT WITH (FORMAT CSV, HEADER)", schema_name, table_name)`. -/
def copy_query (schema_name table_name : String) : String :=
  "COPY (select * from " ++ schema_name ++ "." ++ table_name ++
    " order by vid) TO STDOUT WITH (FORMAT CSV, HEADER)"

/-- The output file name built in `dump_table_contents`:
`ext = if no_compression { "csv" } else { "csv.gz" }`;
`path = format!("{}_{}.{}", schema_name, table_name, ext)`. -/
def output_path (schema_name table_name : String) (no_compression : Bool) : String :=
  schema_name ++ "_" ++ table_name ++ "." ++ (if no_compression then "csv" else "csv.gz")

/-! ## Validator theorems (claims C1, C10) -/

/-- C1 (counterexample): the claim says the validator succeeds iff every
character is ASCII alphanumeric.  The code uses Rust's Unicode-aware
`char::is_alphanumeric`, so the Latin-1 letter é (U+00E9) passes validation
although it is not ASCII alphanumeric. -/
theorem validate_schema_accepts_nonascii :
    validate_schema "é" = .ok () ∧ "é".data.all asciiAlphanumeric = false := by
  constructor
  · rfl
  · rfl

/-- C1 (amended): for every candidate schema name (within the Latin-1 range,
where the embedded Unicode table is exact), the validator returns success iff
every character is alphanumeric in the Unicode sense of Rust's
`char::is_alphanumeric` — a strictly larger class than ASCII alphanumeric —
and otherwise fails with the message "Schema name must be alphanumeric". -/
theorem validate_schema_ok_iff_unicode_alphanumeric (s : String)
    (_h : ∀ c ∈ s.data, c.toNat < 256) :
    (validate_schema s = .ok () ↔ s.data.all char_is_alphanumeric = true) ∧
    (s.data.all char_is_alphanumeric = false →
      validate_schema s = .error "Schema name must be alphanumeric") := by
  unfold validate_schema
  constructor
  · constructor
    · intro hval
      by_contra hall
      simp only [Bool.not_eq_true] at hall
      rw [hall] at hval
      simp at hval
    · intro hall
      rw [hall]
      simp
  · intro hall
    rw [hall]
    simp

/-- Witness for `validate_schema_ok_iff_unicode_alphanumeric` at the concrete
Latin-1 schema name "public". -/
theorem validate_schema_ok_iff_unicode_alphanumeric_witness :
    (validate_schema "public" = .ok () ↔
      "public".data.all char_is_alphanumeric = true) ∧
    ("public".data.all char_is_alphanumeric = false →
      validate_schema "public" = .error "Schema name must be alphanumeric") :=
  validate_schema_ok_iff_unicode_alphanumeric "public" (by decide)

/-- C10: the validator accepts the empty string — `"".chars().all(...)` is
vacuously true, so `validate_schema` returns `Ok(())` on `""`. -/
theorem validate_schema_accepts_empty : validate_schema "" = .ok () := by
  rfl

/-! ## Path and query theorems (claims C4, C5) -/

/-- C5: for every schema `s`, table `t` and compression flag, the output file
name is exactly `s_t.csv` when compression is disabled (`no_compression =
true`) and `s_t.csv.gz` when compression is enabled (`no_compression =
false`).  The name is interpreted relative to the configured output root
(the `Fs` operator is rooted at `out_dir` in `main`). -/
theorem output_path_shape (s t : String) :
    output_path s t true = s ++ "_" ++ t ++ ".csv" ∧
    output_path s t false = s ++ "_" ++ t ++ ".csv.gz" := by
  unfold output_path
  constructor
  · simp [String.append_assoc]
  · simp [String.append_assoc]

/-- C4: for every schema `s` and table `t`, the unload query is exactly the
text `COPY (select * from s.t order by vid) TO STDOUT WITH (FORMAT CSV,
HEADER)`, with `s` and `t` interpolated raw (no quoting or escaping).  This
is the claimed shape with `vid` as the row-identifier column; the source
spells the inner SQL keywords in lower case, which SQL treats identically
to the upper-case spelling used in the spec's template. -/
theorem copy_query_shape (s t : String) :
    copy_query s t =
      "COPY (select * from " ++ (s ++ ("." ++ (t ++
        " order by vid) TO STDOUT WITH (FORMAT CSV, HEADER)"))) := by
  unfold copy_query
  simp [String.append_assoc]

/-! ## Gzip framing (model of `async_compression::futures::write::GzipEncoder`)

The encoder buffers payload bytes as they are written and emits the framed
gzip stream — header, body, trailer — when (and only when) it is closed:
`poll_close` flushes the remaining DEFLATE data and writes the 8-byte
trailer.  The DEFLATE body is abstracted as the identity on payload bytes
and CRC32 as a byte-sum checksum; what matters for the claims is that the
stream is complete (decodable) exactly when the framing is complete. -/

/-- The 10-byte gzip member header. -/
def gzipHeader : Bytes := [31, 139, 8, 0, 0, 0, 0, 0, 0, 255]

/-- Four little-endian bytes of `n` (mod 2^32). -/
def le32 (n : Nat) : Bytes :=
  [n % 256, n / 256 % 256, n / 65536 % 256, n / 16777216 % 256]

/-- The 8-byte gzip trailer for a payload: checksum (CRC32 abstracted as the
byte sum mod 2^32) followed by the payload length mod 2^32. -/
def gzipTrailer (payload : Bytes) : Bytes :=
  le32 (payload.sum % 4294967296) ++ le32 (payload.length % 4294967296)

/-- Decode a gzip stream: succeeds, returning the payload, iff the stream is
a complete framed member — header, payload, matching trailer.  A stream cut
off before the trailer (an unfinalized encoder) does not decode. -/
def gunzip (bs : Bytes) : Option Bytes :=
  if gzipHeader.isPrefixOf bs then
    let rest := bs.drop gzipHeader.length
    if 8 ≤ rest.length then
      let payload := rest.take (rest.length - 8)
      if rest.drop (rest.length - 8) = gzipTrailer payload then some payload else none
    else none
  else none

/-! ## The wrapped sink (src/main.rs lines 92–98)

`dump_table_contents` opens `file_writer = fs.writer(&path)` and wraps it:
`Box<dyn AsyncWrite>` is either the file writer itself (`no_compression`)
or `GzipEncoder::new(file_writer)`.  `Writer` models that boxed value:
`file` is what has reached the storage sink, `pending` is what sits
buffered inside the gzip encoder, `received` is the ghost total of bytes
accepted by the wrapped sink (mode-independent observer), and `closed`
records whether `close` was ever called — the source never calls it. -/

structure Writer where
  no_compression : Bool
  /-- Bytes that have reached the underlying storage sink. -/
  file : Bytes
  /-- Bytes buffered inside the gzip encoder, not yet framed out. -/
  pending : Bytes
  /-- Ghost observer: every byte accepted by `write_all`, in order. -/
  received : Bytes
  /-- Whether the writer was closed (finalized). -/
  closed : Bool
deriving Repr, DecidableEq

/-- The writer as freshly constructed in `dump_table_contents`. -/
def Writer.init (no_compression : Bool) : Writer :=
  ⟨no_compression, [], [], [], false⟩

/-- Model of `writer.write_all(&chunk)`: the plain file writer passes bytes straight
through to the file; the gzip encoder buffers them (emission happens at
close). -/
def Writer.write_all (w : Writer) (chunk : Bytes) : Writer :=
  if w.no_compression then
    { w with file := w.file ++ chunk, received := w.received ++ chunk }
  else
    { w with pending := w.pending ++ chunk, received := w.received ++ chunk }

/-- Model of `writer.close()`: finalizes the sink.  For the gzip encoder this flushes
the buffered payload as a complete framed stream (header, body, trailer)
into the file.  `dump_table_contents` never calls this — it is defined here
because the spec's finalization contract refers to it. -/
def Writer.close (w : Writer) : Writer :=
  if w.no_compression then { w with closed := true }
  else
    { w with file := w.file ++ gzipHeader ++ w.pending ++ gzipTrailer w.pending,
             pending := [], closed := true }

/-! ## Environment oracles and events -/

/-- One item yielded by `copy_stmt_stream.next()`: a fatal stream error or a
chunk of CSV bytes. -/
abbrev StreamItem := Except String Bytes

/-- Observable actions of a run, for ordering and absence properties.
`finalize`, `closeSink` and `deleteFile` model operations the program could
perform on the sink (closing the gzip encoder, closing the storage writer,
deleting a file) — the source never performs any of them, and the theorems
state that absence. -/
inductive Event where
  | jobStart : String → String → Event
  | openWriter : String → Event
  | write : String → Bytes → Event
  | finalize : String → Event
  | closeSink : String → Event
  | deleteFile : String → Event
  | jobEnd : String → String → Bool → Event
deriving Repr, DecidableEq

/-- The sink path an event touches, if any. -/
def Event.path : Event → Option String
  | .openWriter p => some p
  | .write p _ => some p
  | .finalize p => some p
  | .closeSink p => some p
  | .deleteFile p => some p
  | _ => none

/-- The database collaborator, keyed by the exact query text the program
sends: `connect` models `tokio_postgres::connect` for a URL, `query` models
`client.query(&tables_query, &[])` returning the `tablename` column, and
`copyOut` models `client.prepare(&copy_query)` followed by
`client.copy_out(&stmt)`, returning the whole finite stream of items. -/
structure Db where
  connect : String → Except String Unit
  query : String → Except String (List String)
  copyOut : String → Except String (List StreamItem)

/-- The storage collaborator (the `opendal` `Fs` operator rooted at
`out_dir`): `init` models `Operator::new(fs)?.finish()`, `openRes` models
`fs.writer(&path)`, `writeRes` models the result of the i-th `write_all`
call on the writer for a path (its byte effect is tracked in `Writer`). -/
structure FsSpec where
  init : Except String Unit
  openRes : String → Except String Unit
  writeRes : String → Nat → Except String Unit

/-! ## The export loop (src/main.rs lines 110–116) -/

/-- The `while let Some(row) = copy_stmt_stream.next().await` loop: consume
the stream items in order; `let row = row?` aborts on a stream error, and
`writer.write_all(&row).await?` aborts on a write error (the failed chunk is
not appended).  Returns the result, the final writer, and the write events
in order. -/
def write_loop (fsS : FsSpec) (path : String) :
    List StreamItem → Writer → Nat → Except String Unit × Writer × List Event
  | [], w, _ => (.ok (), w, [])
  | .error e :: _, w, _ => (.error e, w, [])
  | .ok chunk :: rest, w, idx =>
    match fsS.writeRes path idx with
    | .error e => (.error e, w, [])
    | .ok () =>
      let r := write_loop fsS path rest (w.write_all chunk) (idx + 1)
      (r.1, r.2.1, Event.write path chunk :: r.2.2)

/-- Outcome of one `dump_table_contents` call. -/
structure JobOutcome where
  res : Except String Unit
  /-- The output path computed for this job. -/
  path : String
  /-- Whether `fs.writer(&path)` succeeded (the file exists from then on). -/
  opened : Bool
  /-- The wrapped sink's final state (meaningful when `opened`). -/
  writer : Writer
  events : List Event
deriving Repr

/-- Model of `async fn dump_table_contents(client, schema_name, table_name, fs,
no_compression)`, statement by statement: compute `ext` and `path`; open
`fs.writer(&path)?`; wrap it (plain or gzip); build `copy_query`; prepare
and `copy_out` it; run the write loop; return `Ok(())` — without closing or
flushing the writer. -/
def dump_table_contents (db : Db) (fsS : FsSpec) (schema_name table_name : String)
    (no_compression : Bool) : JobOutcome :=
  let path := output_path schema_name table_name no_compression
  match fsS.openRes path with
  | .error e => ⟨.error e, path, false, Writer.init no_compression, []⟩
  | .ok () =>
    match db.copyOut (copy_query schema_name table_name) with
    | .error e =>
      ⟨.error e, path, true, Writer.init no_compression, [Event.openWriter path]⟩
    | .ok items =>
      let r := write_loop fsS path items (Writer.init no_compression) 0
      ⟨r.1, path, true, r.2.1, Event.openWriter path :: r.2.2⟩

/-! ## The run (src/main.rs lines 37–80) -/

/-- Outcome of a whole run: the process result, the files on disk in
creation order with the bytes that reached each, and the event trace. -/
structure RunOutcome where
  res : Except String Unit
  files : List (String × Bytes)
  events : List Event
deriving Repr

/-- The file entry a job leaves on disk, if its sink was opened. -/
def JobOutcome.fileEntry (j : JobOutcome) : List (String × Bytes) :=
  if j.opened then [(j.path, j.writer.file)] else []

/-- The `for table in tables` loop in `main`:
`dump_table_contents(&client, &schema_name, table_name, &fs, no_compression).await?`
— each job runs to completion before the next starts, and the first failing
job aborts the loop with its error. -/
def run_loop (db : Db) (fsS : FsSpec) (schema_name : String) (no_compression : Bool) :
    List String → RunOutcome
  | [] => ⟨.ok (), [], []⟩
  | t :: ts =>
    let j := dump_table_contents db fsS schema_name t no_compression
    let evs := Event.jobStart schema_name t :: j.events ++
      [Event.jobEnd schema_name t j.res.toBool]
    match j.res with
    | .error e => ⟨.error e, j.fileEntry, evs⟩
    | .ok () =>
      let rest := run_loop db fsS schema_name no_compression ts
      ⟨rest.res, j.fileEntry ++ rest.files, evs ++ rest.events⟩

/-- Model of `async fn main()` after argument parsing (`args.schema` has already
passed `validate_schema` in clap): connect to the database (`?`), build the
rooted `Fs` operator (`?`), run the catalog query (`?`), then the table
loop.  The spawned task that only logs connection-monitor errors has no
effect on this control flow and is not modelled. -/
def main_run (db : Db) (fsS : FsSpec) (database_url schema_name : String)
    (no_compression : Bool) : RunOutcome :=
  match db.connect database_url with
  | .error e => ⟨.error e, [], []⟩
  | .ok () =>
    match fsS.init with
    | .error e => ⟨.error e, [], []⟩
    | .ok () =>
      match db.query (tables_query schema_name) with
      | .error e => ⟨.error e, [], []⟩
      | .ok tables => run_loop db fsS schema_name no_compression tables

/-! ## Concrete fixtures

Small oracle instances used by the closed evidence theorems and the
witnesses: a database whose schema `public` has one table `users` whose
COPY stream yields two chunks, a database with an empty catalog, a database
whose stream fails after one chunk, a fully working filesystem, and a
filesystem whose second write fails. -/

/-- A filesystem where init, every open and every write succeed. -/
def fsOk : FsSpec := ⟨.ok (), fun _ => .ok (), fun _ _ => .ok ()⟩

/-- A filesystem where the second and later writes to any path fail. -/
def fsWriteFail : FsSpec :=
  ⟨.ok (), fun _ => .ok (),
   fun _ j => if j = 0 then .ok () else .error "disk full"⟩

/-- Schema `public` holds one table `users`; its COPY stream yields the
chunks `[10, 20]` and `[30]`. -/
def dbOne : Db where
  connect := fun _ => .ok ()
  query := fun q => if q = tables_query "public" then .ok ["users"] else .ok []
  copyOut := fun q =>
    if q = copy_query "public" "users" then .ok [.ok [10, 20], .ok [30]]
    else .error "no stream"

/-- A database whose catalog is empty for every schema. -/
def dbEmpty : Db where
  connect := fun _ => .ok ()
  query := fun _ => .ok []
  copyOut := fun _ => .error "no stream"

/-- Schema `public` holds one table `users`; its COPY stream yields one
chunk and then fails. -/
def dbStreamErr : Db where
  connect := fun _ => .ok ()
  query := fun q => if q = tables_query "public" then .ok ["users"] else .ok []
  copyOut := fun q =>
    if q = copy_query "public" "users" then .ok [.ok [10, 20], .error "stream reset"]
    else .error "no stream"

/-! ## Finalization and round-trip theorems (claims C2, C3) -/

/-- C2: `dump_table_contents` returns `Ok(())` on stream exhaustion WITHOUT
finalizing the compression sink or closing the storage sink: on a concrete
gzip-mode job that succeeds, the writer was never closed, the payload is
still buffered in the encoder, nothing (in particular no gzip trailer)
reached the file, and the event trace holds no finalize and no close-sink
event.  The claim — and the spec's step 7, which says both finalization
steps must run — is violated by the code: the body of
`dump_table_contents` ends with `Ok(())` right after the write loop,
dropping the writer without `close().await`. -/
theorem gzip_job_completes_without_finalize :
    (dump_table_contents dbOne fsOk "public" "users" false).res = .ok () ∧
    (dump_table_contents dbOne fsOk "public" "users" false).writer.closed = false ∧
    (dump_table_contents dbOne fsOk "public" "users" false).writer.pending = [10, 20, 30] ∧
    (dump_table_contents dbOne fsOk "public" "users" false).writer.file = [] ∧
    (dump_table_contents dbOne fsOk "public" "users" false).events =
      [Event.openWriter "public_users.csv.gz",
       Event.write "public_users.csv.gz" [10, 20],
       Event.write "public_users.csv.gz" [30]] :=
  ⟨rfl, rfl, rfl, rfl, rfl⟩

/-- C3: the gzip-mode output does NOT decompress to the plain-mode output.
For the same concrete table and database state, the plain-mode file holds
the streamed bytes `[10, 20, 30]`, but the gzip-mode file is not a
decodable gzip stream (the encoder was never finalized, so the trailer was
never written), so decompression cannot yield the plain content.  The last
conjunct shows the round trip is exactly what finalizing would have
restored: closing the writer makes the file decode to `[10, 20, 30]`. -/
theorem gzip_output_not_roundtrip :
    gunzip (dump_table_contents dbOne fsOk "public" "users" false).writer.file = none ∧
    (dump_table_contents dbOne fsOk "public" "users" true).writer.file = [10, 20, 30] ∧
    gunzip (Writer.close (dump_table_contents dbOne fsOk "public" "users" false).writer).file
      = some [10, 20, 30] :=
  ⟨rfl, rfl, by decide⟩

/-! ## Empty-schema run (claim C6) -/

/-- C6: when the catalog query returns no rows for the (validated) schema —
whether the schema has no tables or matches no schema at all, both of which
are plain `.ok []` results of the `pg_tables` SELECT, not errors — the table
loop runs zero iterations: the run returns success, leaves no files, and
performs no sink action at all (empty event trace). -/
theorem empty_schema_run_succeeds_no_writes (db : Db) (fsS : FsSpec)
    (url schema : String) (nc : Bool)
    (hconn : db.connect url = .ok ()) (hinit : fsS.init = .ok ())
    (hq : db.query (tables_query schema) = .ok []) :
    main_run db fsS url schema nc = ⟨.ok (), [], []⟩ := by
  unfold main_run
  rw [hconn, hinit, hq]
  rfl

/-- Witness for `empty_schema_run_succeeds_no_writes`: a run over a database
with an empty catalog. -/
theorem empty_schema_run_succeeds_no_writes_witness :
    main_run dbEmpty fsOk "postgres://u@h/db" "public" true = ⟨.ok (), [], []⟩ :=
  empty_schema_run_succeeds_no_writes dbEmpty fsOk "postgres://u@h/db" "public" true
    rfl rfl rfl

/-! ## Write-loop lemmas -/

/-- Writing a list of chunks in sequence: the wrapped sink receives exactly
their concatenation, in order. -/
lemma foldl_write_all_received (cs : List Bytes) (w : Writer) :
    (cs.foldl Writer.write_all w).received = w.received ++ cs.flatten := by
  induction cs generalizing w with
  | nil => simp
  | cons c cs ih =>
    cases hnc : w.no_compression <;>
      simp [Writer.write_all, hnc, ih, List.append_assoc]

/-- Characterization of the write loop on a run of successful items whose
writes all succeed: it threads the writer through `write_all` chunk by
chunk, logs one write event per chunk in order, and continues on the rest
of the stream with the write counter advanced. -/
lemma write_loop_ok_run (fsS : FsSpec) (path : String) (cs : List Bytes)
    (rest : List StreamItem) (w : Writer) (idx : Nat)
    (hw : ∀ j, j < cs.length → fsS.writeRes path (idx + j) = .ok ()) :
    write_loop fsS path (cs.map Except.ok ++ rest) w idx =
      ((write_loop fsS path rest (cs.foldl Writer.write_all w) (idx + cs.length)).1,
       (write_loop fsS path rest (cs.foldl Writer.write_all w) (idx + cs.length)).2.1,
       cs.map (Event.write path) ++
         (write_loop fsS path rest (cs.foldl Writer.write_all w) (idx + cs.length)).2.2) := by
  induction cs generalizing w idx with
  | nil => simp [write_loop]
  | cons c cs ih =>
    have h0 : fsS.writeRes path idx = .ok () := by
      have := hw 0 (by simp)
      simpa using this
    have hw1 : ∀ j, j < cs.length → fsS.writeRes path (idx + 1 + j) = .ok () := by
      intro j hj
      have := hw (j + 1) (by simpa using Nat.succ_lt_succ hj)
      simpa [Nat.add_assoc, Nat.add_comm 1 j] using this
    simp only [List.map_cons, List.cons_append, write_loop, h0, List.append_eq]
    rw [ih (w.write_all c) (idx + 1) hw1]
    simp [Nat.add_assoc, Nat.add_comm 1 cs.length]

/-- Every event the write loop emits is a write to the loop's own path. -/
lemma write_loop_events_shape (fsS : FsSpec) (path : String)
    (items : List StreamItem) (w : Writer) (idx : Nat) :
    ∀ e ∈ (write_loop fsS path items w idx).2.2, ∃ c, e = Event.write path c := by
  induction items generalizing w idx with
  | nil => simp [write_loop]
  | cons i rest ih =>
    cases i with
    | error e => simp [write_loop]
    | ok c =>
      simp only [write_loop]
      cases h : fsS.writeRes path idx with
      | error e => simp
      | ok u =>
        cases u
        intro e he
        simp only [List.mem_cons] at he
        rcases he with he | he
        · exact ⟨c, he⟩
        · exact ih (w.write_all c) (idx + 1) e he

/-- The write loop on an all-successful stream whose writes all succeed. -/
lemma write_loop_all_ok (fsS : FsSpec) (path : String) (cs : List Bytes) (w : Writer)
    (hw : ∀ j, j < cs.length → fsS.writeRes path j = .ok ()) :
    write_loop fsS path (cs.map Except.ok) w 0 =
      (.ok (), cs.foldl Writer.write_all w, cs.map (Event.write path)) := by
  have h := write_loop_ok_run fsS path cs [] w 0 (by intro j hj; simpa using hw j hj)
  simpa [write_loop] using h

/-- The write loop aborts at the first stream error, after writing exactly
the chunks before it. -/
lemma write_loop_stream_err (fsS : FsSpec) (path : String) (cs : List Bytes)
    (e : String) (rest : List StreamItem) (w : Writer)
    (hw : ∀ j, j < cs.length → fsS.writeRes path j = .ok ()) :
    write_loop fsS path (cs.map Except.ok ++ .error e :: rest) w 0 =
      (.error e, cs.foldl Writer.write_all w, cs.map (Event.write path)) := by
  have h := write_loop_ok_run fsS path cs (.error e :: rest) w 0
    (by intro j hj; simpa using hw j hj)
  simpa [write_loop] using h

/-- The write loop aborts at the first failing write, after writing exactly
the chunks before it; the failed chunk is not appended. -/
lemma write_loop_write_err (fsS : FsSpec) (path : String) (cs : List Bytes)
    (c : Bytes) (e : String) (rest : List StreamItem) (w : Writer)
    (hw : ∀ j, j < cs.length → fsS.writeRes path j = .ok ())
    (hfail : fsS.writeRes path cs.length = .error e) :
    write_loop fsS path (cs.map Except.ok ++ .ok c :: rest) w 0 =
      (.error e, cs.foldl Writer.write_all w, cs.map (Event.write path)) := by
  have h := write_loop_ok_run fsS path cs (.ok c :: rest) w 0
    (by intro j hj; simpa using hw j hj)
  rw [h]
  simp [write_loop, hfail]

/-! ## Streaming theorem (claim C7) -/

/-- C7: the export engine consumes the row stream strictly in order and
writes every chunk unmodified into the wrapped sink, and any single
stream-read or write failure aborts the job with no retry.  Three parts, for
every job (schema, table, flag) and chunk list `cs`: (1) on an error-free
stream, the job succeeds, the event trace is the sink open followed by one
write per chunk in stream order, and the wrapped sink received exactly the
concatenation of the chunks; (2) if the stream yields an error after `cs`,
the job aborts with that error having written exactly `cs` — nothing after
the failure, each chunk written once; (3) likewise if the write of the next
chunk after `cs` fails. -/
theorem stream_consumed_in_order_fail_fast (db : Db) (fsS : FsSpec)
    (schema t : String) (nc : Bool) (cs : List Bytes) (e : String)
    (rest : List StreamItem) (c : Bytes) :
    (fsS.openRes (output_path schema t nc) = .ok () →
      db.copyOut (copy_query schema t) = .ok (cs.map Except.ok) →
      (∀ j, j < cs.length → fsS.writeRes (output_path schema t nc) j = .ok ()) →
      (dump_table_contents db fsS schema t nc).res = .ok () ∧
      (dump_table_contents db fsS schema t nc).events =
        Event.openWriter (output_path schema t nc) ::
          cs.map (Event.write (output_path schema t nc)) ∧
      (dump_table_contents db fsS schema t nc).writer.received = cs.flatten) ∧
    (fsS.openRes (output_path schema t nc) = .ok () →
      db.copyOut (copy_query schema t) = .ok (cs.map Except.ok ++ .error e :: rest) →
      (∀ j, j < cs.length → fsS.writeRes (output_path schema t nc) j = .ok ()) →
      (dump_table_contents db fsS schema t nc).res = .error e ∧
      (dump_table_contents db fsS schema t nc).events =
        Event.openWriter (output_path schema t nc) ::
          cs.map (Event.write (output_path schema t nc)) ∧
      (dump_table_contents db fsS schema t nc).writer.received = cs.flatten) ∧
    (fsS.openRes (output_path schema t nc) = .ok () →
      db.copyOut (copy_query schema t) = .ok (cs.map Except.ok ++ .ok c :: rest) →
      (∀ j, j < cs.length → fsS.writeRes (output_path schema t nc) j = .ok ()) →
      fsS.writeRes (output_path schema t nc) cs.length = .error e →
      (dump_table_contents db fsS schema t nc).res = .error e ∧
      (dump_table_contents db fsS schema t nc).events =
        Event.openWriter (output_path schema t nc) ::
          cs.map (Event.write (output_path schema t nc)) ∧
      (dump_table_contents db fsS schema t nc).writer.received = cs.flatten) := by
  refine ⟨?_, ?_, ?_⟩
  · intro hopen hcopy hw
    simp only [dump_table_contents, hopen, hcopy,
      write_loop_all_ok fsS (output_path schema t nc) cs (Writer.init nc) hw]
    simp [foldl_write_all_received, Writer.init]
  · intro hopen hcopy hw
    simp only [dump_table_contents, hopen, hcopy,
      write_loop_stream_err fsS (output_path schema t nc) cs e rest (Writer.init nc) hw]
    simp [foldl_write_all_received, Writer.init]
  · intro hopen hcopy hw hfail
    simp only [dump_table_contents, hopen, hcopy,
      write_loop_write_err fsS (output_path schema t nc) cs c e rest (Writer.init nc) hw hfail]
    simp [foldl_write_all_received, Writer.init]

/-- Witness for `stream_consumed_in_order_fail_fast`: the error-free,
stream-error and write-error scenarios at concrete oracles. -/
theorem stream_consumed_in_order_fail_fast_witness :
    ((dump_table_contents dbOne fsOk "public" "users" true).res = .ok () ∧
     (dump_table_contents dbOne fsOk "public" "users" true).events =
       Event.openWriter (output_path "public" "users" true) ::
         [[10, 20], [30]].map (Event.write (output_path "public" "users" true)) ∧
     (dump_table_contents dbOne fsOk "public" "users" true).writer.received =
       [[10, 20], [30]].flatten) ∧
    ((dump_table_contents dbStreamErr fsOk "public" "users" true).res =
        .error "stream reset" ∧
     (dump_table_contents dbStreamErr fsOk "public" "users" true).events =
       Event.openWriter (output_path "public" "users" true) ::
         [[10, 20]].map (Event.write (output_path "public" "users" true)) ∧
     (dump_table_contents dbStreamErr fsOk "public" "users" true).writer.received =
       [[10, 20]].flatten) ∧
    ((dump_table_contents dbOne fsWriteFail "public" "users" true).res =
        .error "disk full" ∧
     (dump_table_contents dbOne fsWriteFail "public" "users" true).events =
       Event.openWriter (output_path "public" "users" true) ::
         [[10, 20]].map (Event.write (output_path "public" "users" true)) ∧
     (dump_table_contents dbOne fsWriteFail "public" "users" true).writer.received =
       [[10, 20]].flatten) :=
  ⟨(stream_consumed_in_order_fail_fast dbOne fsOk "public" "users" true
      [[10, 20], [30]] "e" [] []).1 rfl rfl (fun _ _ => rfl),
   ((stream_consumed_in_order_fail_fast dbStreamErr fsOk "public" "users" true
      [[10, 20]] "stream reset" [] []).2).1 rfl rfl (fun _ _ => rfl),
   ((stream_consumed_in_order_fail_fast dbOne fsWriteFail "public" "users" true
      [[10, 20]] "disk full" [] [30]).2).2 rfl rfl
     (fun j hj => by
       have hj1 : j < 1 := by simpa using hj
       have hj0 : j = 0 := by omega
       subst hj0
       rfl)
     rfl⟩

/-! ## Run-trace helpers (claims C8, C9) -/

/-- The slice of the run's event trace contributed by one table's job: the
job starts, its sink events happen, the job ends (successfully or not). -/
def job_trace (db : Db) (fsS : FsSpec) (schema : String) (nc : Bool) (t : String) :
    List Event :=
  Event.jobStart schema t :: (dump_table_contents db fsS schema t nc).events ++
    [Event.jobEnd schema t (dump_table_contents db fsS schema t nc).res.toBool]

/-- The tables the loop actually processes, in enumeration order: the
maximal prefix of successful jobs, plus the first failing one if any. -/
def processed_tables (db : Db) (fsS : FsSpec) (schema : String) (nc : Bool) :
    List String → List String
  | [] => []
  | t :: ts =>
    match (dump_table_contents db fsS schema t nc).res with
    | .error _ => [t]
    | .ok () => t :: processed_tables db fsS schema nc ts

/-- Every event a job emits is an action on that job's own sink: the open
of, or a write to, exactly the job's output path.  (In particular no event
of another table's path, no finalize, no close, no delete.) -/
lemma dump_events_own_path (db : Db) (fsS : FsSpec) (schema t : String) (nc : Bool) :
    ∀ e ∈ (dump_table_contents db fsS schema t nc).events,
      e = Event.openWriter (output_path schema t nc) ∨
      ∃ c, e = Event.write (output_path schema t nc) c := by
  unfold dump_table_contents
  cases hopen : fsS.openRes (output_path schema t nc) with
  | error e2 => simp [hopen]
  | ok u =>
    cases u
    cases hcopy : db.copyOut (copy_query schema t) with
    | error e2 => simp [hopen, hcopy]
    | ok items =>
      simp only [hopen, hcopy]
      intro e he
      simp only [List.mem_cons] at he
      rcases he with he | he
      · exact Or.inl he
      · exact Or.inr (write_loop_events_shape fsS _ items _ 0 e he)

/-! ## Sequential processing theorem (claim C9) -/

/-- C9: tables are processed strictly sequentially in the order the
enumerator returned them.  (1) The run's event trace is exactly the
concatenation, in enumeration order, of the per-table job traces of the
processed tables (the successful prefix plus the first failure, after which
no job starts): every event of table `i+1`'s job, including its start,
comes after table `i`'s job-end event.  (2) Each job's sink events touch
only that job's own output path — no sink is shared across jobs. -/
theorem tables_processed_sequentially (db : Db) (fsS : FsSpec) (schema : String)
    (nc : Bool) (tables : List String) :
    (run_loop db fsS schema nc tables).events =
      ((processed_tables db fsS schema nc tables).map
        (job_trace db fsS schema nc)).flatten ∧
    (∀ t, ∀ e ∈ (dump_table_contents db fsS schema t nc).events,
      Event.path e = some (output_path schema t nc)) := by
  constructor
  · induction tables with
    | nil => rfl
    | cons t ts ih =>
      simp only [run_loop, processed_tables]
      cases h : (dump_table_contents db fsS schema t nc).res with
      | error e => simp [job_trace, h]
      | ok u =>
        cases u
        simp [job_trace, h, ih]
  · intro t e he
    rcases dump_events_own_path db fsS schema t nc e he with h | ⟨c, h⟩ <;>
      subst h <;> rfl

/-! ## Fail-fast lemmas and theorem (claim C8) -/

/-- Splitting the table loop after a prefix of successful jobs: the loop
runs the prefix to completion — accumulating its files and its traces in
order — and continues on the remaining tables. -/
lemma run_loop_ok_front (db : Db) (fsS : FsSpec) (schema : String) (nc : Bool)
    (ts1 rest : List String)
    (h : ∀ u ∈ ts1, (dump_table_contents db fsS schema u nc).res = .ok ()) :
    run_loop db fsS schema nc (ts1 ++ rest) =
      ⟨(run_loop db fsS schema nc rest).res,
       (ts1.map (fun u => (dump_table_contents db fsS schema u nc).fileEntry)).flatten ++
         (run_loop db fsS schema nc rest).files,
       (ts1.map (job_trace db fsS schema nc)).flatten ++
         (run_loop db fsS schema nc rest).events⟩ := by
  induction ts1 with
  | nil => simp
  | cons u ts1 ih =>
    have hu : (dump_table_contents db fsS schema u nc).res = .ok () := h u (by simp)
    have h1 : ∀ v ∈ ts1, (dump_table_contents db fsS schema v nc).res = .ok () :=
      fun v hv => h v (by simp [hv])
    simp only [List.cons_append, run_loop, hu, List.append_eq]
    rw [ih h1]
    simp [job_trace, hu, List.append_assoc]

/-- No event a job emits deletes a file. -/
lemma dump_events_no_delete (db : Db) (fsS : FsSpec) (schema t : String) (nc : Bool)
    (p : String) :
    Event.deleteFile p ∉ (dump_table_contents db fsS schema t nc).events := by
  intro hmem
  rcases dump_events_own_path db fsS schema t nc _ hmem with h | ⟨c, h⟩ <;>
    exact Event.noConfusion h

/-- No event of the table loop deletes a file. -/
lemma run_loop_events_no_delete (db : Db) (fsS : FsSpec) (schema : String)
    (nc : Bool) (tables : List String) (p : String) :
    Event.deleteFile p ∉ (run_loop db fsS schema nc tables).events := by
  induction tables with
  | nil => simp [run_loop]
  | cons t ts ih =>
    simp only [run_loop]
    cases h : (dump_table_contents db fsS schema t nc).res with
    | error e =>
      simp only [h]
      intro hc
      rcases List.mem_cons.mp hc with hc | hc
      · exact Event.noConfusion hc
      rcases List.mem_append.mp hc with hc | hc
      · exact dump_events_no_delete db fsS schema t nc p hc
      · exact Event.noConfusion (List.mem_singleton.mp hc)
    | ok u =>
      cases u
      simp only [h]
      intro hc
      rcases List.mem_append.mp hc with hc | hc
      · rcases List.mem_cons.mp hc with hc | hc
        · exact Event.noConfusion hc
        rcases List.mem_append.mp hc with hc | hc
        · exact dump_events_no_delete db fsS schema t nc p hc
        · exact Event.noConfusion (List.mem_singleton.mp hc)
      · exact ih hc

/-- C8: error propagation is uniformly fail-fast.  (1) A connection error
aborts the run before anything is written.  (2) So does a failure to build
the rooted filesystem operator.  (3) So does a catalog-query error.  (4) If
the first failing job is table `t`, preceded by successful jobs `ts1`, the
run ends with exactly that error; its trace is exactly the prefix jobs'
traces plus failing `t`'s — no job after `t` starts, no retry (each
processed table contributes its trace once), and no error is downgraded;
the files on disk are exactly the prefix tables' completed files plus `t`'s
partial file — already-exported tables are not rolled back and the partial
file is kept.  (5) Unconditionally, no run ever emits a file deletion. -/
theorem run_fail_fast (db : Db) (fsS : FsSpec) (url schema : String) (nc : Bool)
    (e : String) (ts1 ts2 : List String) (t : String) :
    (db.connect url = .error e → main_run db fsS url schema nc = ⟨.error e, [], []⟩) ∧
    (db.connect url = .ok () → fsS.init = .error e →
      main_run db fsS url schema nc = ⟨.error e, [], []⟩) ∧
    (db.connect url = .ok () → fsS.init = .ok () →
      db.query (tables_query schema) = .error e →
      main_run db fsS url schema nc = ⟨.error e, [], []⟩) ∧
    (db.connect url = .ok () → fsS.init = .ok () →
      db.query (tables_query schema) = .ok (ts1 ++ t :: ts2) →
      (∀ u ∈ ts1, (dump_table_contents db fsS schema u nc).res = .ok ()) →
      (dump_table_contents db fsS schema t nc).res = .error e →
      (main_run db fsS url schema nc).res = .error e ∧
      (main_run db fsS url schema nc).events =
        ((ts1 ++ [t]).map (job_trace db fsS schema nc)).flatten ∧
      (main_run db fsS url schema nc).files =
        ((ts1 ++ [t]).map
          (fun u => (dump_table_contents db fsS schema u nc).fileEntry)).flatten) ∧
    (∀ p, Event.deleteFile p ∉ (main_run db fsS url schema nc).events) := by
  refine ⟨?_, ?_, ?_, ?_, ?_⟩
  · intro hconn
    unfold main_run
    rw [hconn]
  · intro hconn hinit
    unfold main_run
    rw [hconn, hinit]
  · intro hconn hinit hq
    unfold main_run
    rw [hconn, hinit, hq]
  · intro hconn hinit hq hpre herr
    unfold main_run
    rw [hconn, hinit, hq]
    simp only [run_loop_ok_front db fsS schema nc ts1 (t :: ts2) hpre]
    simp only [run_loop, herr]
    simp [herr, job_trace, List.append_assoc]
  · intro p
    unfold main_run
    cases db.connect url with
    | error e2 => simp
    | ok u =>
      cases u
      cases fsS.init with
      | error e2 => simp
      | ok u2 =>
        cases u2
        cases db.query (tables_query schema) with
        | error e2 => simp
        | ok tables => exact run_loop_events_no_delete db fsS schema nc tables p

/-- A database that refuses the connection. -/
def dbConnFail : Db :=
  ⟨fun _ => .error "connection refused", fun _ => .ok [], fun _ => .error "no stream"⟩

/-- A filesystem whose operator construction fails. -/
def fsInitFail : FsSpec := ⟨.error "init failed", fun _ => .ok (), fun _ _ => .ok ()⟩

/-- A database whose catalog query fails. -/
def dbCatalogFail : Db :=
  ⟨fun _ => .ok (), fun _ => .error "catalog down", fun _ => .error "no stream"⟩

/-- Witness for `run_fail_fast`: all five parts at concrete oracles — a
refused connection, a failed operator build, a failed catalog query, a
first-table stream failure, and the unconditional no-delete fact. -/
theorem run_fail_fast_witness :
    main_run dbConnFail fsOk "db://u" "public" true =
      ⟨.error "connection refused", [], []⟩ ∧
    main_run dbEmpty fsInitFail "db://u" "public" true = ⟨.error "init failed", [], []⟩ ∧
    main_run dbCatalogFail fsOk "db://u" "public" true =
      ⟨.error "catalog down", [], []⟩ ∧
    ((main_run dbStreamErr fsOk "db://u" "public" true).res = .error "stream reset" ∧
     (main_run dbStreamErr fsOk "db://u" "public" true).events =
       (([] ++ ["users"]).map (job_trace dbStreamErr fsOk "public" true)).flatten ∧
     (main_run dbStreamErr fsOk "db://u" "public" true).files =
       (([] ++ ["users"]).map
         (fun u => (dump_table_contents dbStreamErr fsOk "public" u true).fileEntry)).flatten) ∧
    Event.deleteFile "x" ∉ (main_run dbOne fsOk "db://u" "public" true).events :=
  ⟨(run_fail_fast dbConnFail fsOk "db://u" "public" true "connection refused"
      [] [] "t").1 rfl,
   (run_fail_fast dbEmpty fsInitFail "db://u" "public" true "init failed"
      [] [] "t").2.1 rfl rfl,
   (run_fail_fast dbCatalogFail fsOk "db://u" "public" true "catalog down"
      [] [] "t").2.2.1 rfl rfl rfl,
   (run_fail_fast dbStreamErr fsOk "db://u" "public" true "stream reset"
      [] [] "users").2.2.2.1 rfl rfl rfl
     (fun u hu => absurd hu (List.not_mem_nil u)) rfl,
   (run_fail_fast dbOne fsOk "db://u" "public" true "e" [] [] "t").2.2.2.2 "x"⟩

/-- Witness for `tables_processed_sequentially`: its trace equality at a
concrete one-table run, and its path-locality part at that job's sink-open
event, whose membership in the job's events is discharged concretely. -/
theorem tables_processed_sequentially_witness :
    (run_loop dbOne fsOk "public" true ["users"]).events =
      ((processed_tables dbOne fsOk "public" true ["users"]).map
        (job_trace dbOne fsOk "public" true)).flatten ∧
    Event.path (Event.openWriter (output_path "public" "users" true)) =
      some (output_path "public" "users" true) :=
  ⟨(tables_processed_sequentially dbOne fsOk "public" true ["users"]).1,
   (tables_processed_sequentially dbOne fsOk "public" true ["users"]).2 "users"
     (Event.openWriter (output_path "public" "users" true)) (by decide)⟩

end SgToCsv
